import Mathlib

/-!
Verification development for the Gestella agent repository.

The Python sources are shallowly embedded as Lean definitions:

* `src/main.py`   — `run_agent` (response selection), `send_smart_response`,
  `check_auth_status`;
* `src/graph.py`  — `chatbot_node` (persona injection), `should_continue`,
  the LangGraph loop (`runLoop`) and the `ToolNode` execution step (`toolStep`);
* `src/database.py` — `check_user_subscription`, `save_memory`;
* `src/calendar.py` — `list_calendar_events`.

External effects (Telegram transport, the OpenAI/Google/Supabase services,
the filesystem) are passed in as explicit outcome values of type
`Except String _`: `Except.error e` models the Python call raising an
exception with message `e`, and `Except.ok v` models it returning `v`.
-/

/-- Roles of LangChain messages as used by the sources: `HumanMessage`,
`AIMessage`, `ToolMessage`, `SystemMessage`. -/
inductive Role where
  | user
  | assistant
  | toolResult
  | system
deriving DecidableEq, Repr

/-- A tool invocation request carried on an `AIMessage` (`tool_calls`). -/
structure ToolCall where
  name : String
  args : String
  callId : String
deriving DecidableEq, Repr

/-- A LangChain message: a role, text `content`, and the `tool_calls`
attached to assistant messages (empty for every other role). -/
structure Message where
  role : Role
  content : String
  toolCalls : List ToolCall := []
deriving DecidableEq, Repr

/-- The fallback text of `run_agent` (src/main.py line 173), returned when
the transcript is empty or ends with the user message. -/
def noAnswer : String := "Error: Agent failed to respond."

/-- The predicate of the backward scan in `run_agent`
(src/main.py lines 177-178): a message that is not a `HumanMessage` and
whose content is longer than 500 characters. -/
def longCandidate (m : Message) : Bool :=
  decide (¬ m.role = Role.user) && decide (m.content.length > 500)

/-- Response selection of `run_agent` (src/main.py lines 172-181):
if the transcript is empty or ends with a `HumanMessage`, return the
`noAnswer` error text; otherwise take the last message's content, and when
it is shorter than 500 characters scan the transcript backwards for the
most recent non-user message longer than 500 characters. -/
def select (messages : List Message) : String :=
  match messages.getLast? with
  | none => noAnswer
  | some last =>
    if last.role = Role.user then noAnswer
    else if last.content.length < 500 then
      match messages.reverse.find? longCandidate with
      | some m => m.content
      | none => last.content
    else last.content

/-- The turn handler `run_agent` (src/main.py lines 163-183).
`chatAction` is the outcome of `context.bot.send_chat_action` (line 166,
executed before the `try` block: its exception propagates to the caller);
`invoke` is the outcome of `await app.ainvoke(inputs, config)` (line 169,
inside the `try` block whose handler returns the text `"Error: {e}"`),
yielding the final state's message list on success. -/
def run_agent (chatAction : Except String Unit)
    (invoke : Except String (List Message)) : Except String String :=
  match chatAction with
  | Except.error e => Except.error e
  | Except.ok _ =>
    match invoke with
    | Except.error e => Except.ok ("Error: " ++ e)
    | Except.ok messages => Except.ok (select messages)

/-! ### Generic list helpers used by the selection proofs -/

theorem find?_append_some {α : Type} (p : α → Bool) (as bs : List α) (b : α)
    (h : as.find? p = some b) : (as ++ bs).find? p = some b := by
  rw [List.find?_append, h]; rfl

theorem find?_append_none {α : Type} (p : α → Bool) (as bs : List α)
    (h : as.find? p = none) : (as ++ bs).find? p = bs.find? p := by
  rw [List.find?_append, h]; rfl

/-- A successful `find?` over a reversed list returns the element at the
largest index satisfying the predicate. -/
theorem find?_reverse_latest {α : Type} (p : α → Bool) (l : List α) (a : α)
    (h : l.reverse.find? p = some a) :
    ∃ i, ∃ hi : i < l.length, l[i] = a ∧ p a = true ∧
      ∀ j, ∀ hj : j < l.length, i < j → p (l[j]) = false := by
  induction l with
  | nil => simp at h
  | cons hd tl ih =>
    rw [List.reverse_cons] at h
    cases hfind : tl.reverse.find? p with
    | some b =>
      rw [find?_append_some p _ _ _ hfind] at h
      cases h
      obtain ⟨i, hi, hget, hp, hlater⟩ := ih hfind
      refine ⟨i + 1, by simpa using Nat.succ_lt_succ hi, by simpa using hget, hp, ?_⟩
      intro j hj hij
      match j, hj with
      | j + 1, hj =>
        have : i < j := Nat.lt_of_succ_lt_succ hij
        simpa using hlater j (Nat.lt_of_succ_lt_succ hj) this
    | none =>
      rw [find?_append_none p _ _ hfind] at h
      simp only [List.find?] at h
      by_cases hp : p hd
      · simp only [hp] at h
        cases h
        refine ⟨0, by simp, by simp, hp, ?_⟩
        intro j hj hij
        match j, hj with
        | j + 1, hj =>
          have hj' : j < tl.length := Nat.lt_of_succ_lt_succ hj
          have hmem : tl[j] ∈ tl := List.getElem_mem hj'
          have := List.find?_eq_none.mp hfind _ (List.mem_reverse.mpr hmem)
          simpa using this
      · simp [hp] at h

/-! ### Claim C1 — response selection of `run_agent` -/

/-- A 600-character tool-result text. -/
def aStr : String := String.mk (List.replicate 600 'a')

/-- A 501-character final model answer. -/
def bStr : String := String.mk (List.replicate 501 'b')

/-- Transcript of a turn whose tool result (600 characters) is longer than
the final model answer (501 characters). -/
def c1ts : List Message :=
  [⟨Role.user, "hi", []⟩, ⟨Role.toolResult, aStr, []⟩, ⟨Role.assistant, bStr, []⟩]

set_option maxRecDepth 10000 in
/-- Claim C1, counterexample: on a transcript holding a non-empty
600-character tool result followed by a 501-character final answer,
`run_agent` returns the 501-character final answer, although the
accumulated tool-result text is strictly longer — the returned answer is
not the longest accumulated text. -/
theorem c1_counterexample :
    select c1ts = bStr ∧
    (Message.mk Role.toolResult aStr []) ∈ c1ts ∧
    aStr ≠ "" ∧
    aStr.length > (select c1ts).length := by
  refine ⟨by decide, ?_, by decide, by decide⟩
  exact List.Mem.tail _ (List.Mem.head _)

/-- Claim C1, amended: for every transcript ending with a non-user
message, `run_agent` returns that last message's text whenever it has 500
or more characters; only when the last message is shorter than 500
characters does the backward scan run, returning the text of the most
recent (highest-index) non-user message longer than 500 characters when
one exists — recency among long messages, not overall maximal length,
decides — and falling back to the last message's text when none exists.
In particular, for a long tool result followed by a short final answer,
the long tool result is returned. -/
theorem c1_amended (ts : List Message) (last : Message)
    (hlast : ts.getLast? = some last) (hrole : ¬ last.role = Role.user) :
    (500 ≤ last.content.length → select ts = last.content) ∧
    (last.content.length < 500 → (∀ m ∈ ts, longCandidate m = false) →
      select ts = last.content) ∧
    (last.content.length < 500 → ∀ m0 ∈ ts, longCandidate m0 = true →
      ∃ i, ∃ hi : i < ts.length, longCandidate ts[i] = true ∧
        select ts = (ts[i]).content ∧
        ∀ j, ∀ hj : j < ts.length, i < j → longCandidate ts[j] = false) := by
  refine ⟨?_, ?_, ?_⟩
  · intro hge
    simp only [select, hlast, if_neg hrole, if_neg (Nat.not_lt.mpr hge)]
  · intro hshort hall
    cases hfind : ts.reverse.find? longCandidate with
    | some m =>
      have hp := List.find?_some hfind
      have hm := List.mem_reverse.mp (List.mem_of_find?_eq_some hfind)
      rw [hall m hm] at hp
      cases hp
    | none =>
      simp only [select, hlast, if_neg hrole, if_pos hshort, hfind]
  · intro hshort m0 hm0 hp0
    cases hfind : ts.reverse.find? longCandidate with
    | none =>
      exfalso
      have := List.find?_eq_none.mp hfind m0 (List.mem_reverse.mpr hm0)
      simp [hp0] at this
    | some m =>
      obtain ⟨i, hi, hget, hp, hlater⟩ := find?_reverse_latest longCandidate ts m hfind
      refine ⟨i, hi, by rw [hget]; exact hp, ?_, hlater⟩
      rw [hget]
      simp only [select, hlast, if_neg hrole, if_pos hshort, hfind]

/-- The 5000-character report produced by a tool during the witness turn. -/
def bigReport : String := String.mk (List.replicate 5000 'a')

theorem bigReport_length : bigReport.length = 5000 := by
  show (List.replicate 5000 'a').length = 5000
  rw [List.length_replicate]

theorem bStr_length : bStr.length = 501 := by
  show (List.replicate 501 'b').length = 501
  rw [List.length_replicate]

/-- A message with a non-user role and more than 500 characters of content
satisfies the backward-scan predicate of `run_agent`. -/
theorem longCandidate_of (r : Role) (s : String) (tc : List ToolCall)
    (hr : ¬ r = Role.user) (hs : s.length > 500) :
    longCandidate ⟨r, s, tc⟩ = true := by
  unfold longCandidate
  rw [Bool.and_eq_true, decide_eq_true_eq, decide_eq_true_eq]
  exact ⟨hr, hs⟩

/-- Transcript of the witness turn of claim C1: the model requests a tool,
the tool returns a 5000-character report, the model wraps up with a short
final answer. -/
def c1wts : List Message :=
  [⟨Role.user, "hi", []⟩,
   ⟨Role.assistant, "", [⟨"analyze_meeting", "", "1"⟩]⟩,
   ⟨Role.toolResult, bigReport, []⟩,
   ⟨Role.assistant, "Done.", []⟩]

/-- Claim C1, witness: both branches of the amended selection theorem at
concrete turns — on `c1ts` the 501-character last message takes the
fast path and is returned unconditionally, and on `c1wts` (a
5000-character tool result followed by the final answer "Done.") the
backward scan returns the latest long message. -/
theorem c1_witness :
    select c1ts = bStr ∧
    ∃ i, ∃ hi : i < c1wts.length, longCandidate c1wts[i] = true ∧
      select c1wts = (c1wts[i]).content ∧
      ∀ j, ∀ hj : j < c1wts.length, i < j → longCandidate c1wts[j] = false := by
  constructor
  · exact (c1_amended c1ts ⟨Role.assistant, bStr, []⟩ rfl (by decide)).1
      (by rw [show (⟨Role.assistant, bStr, []⟩ : Message).content = bStr from rfl,
        bStr_length]; decide)
  · exact (c1_amended c1wts ⟨Role.assistant, "Done.", []⟩ rfl (by decide)).2.2
      (by decide) ⟨Role.toolResult, bigReport, []⟩
      (List.Mem.tail _ (List.Mem.tail _ (List.Mem.head _)))
      (longCandidate_of Role.toolResult bigReport [] (by decide)
        (by rw [bigReport_length]; decide))

/-! ### Claim C2 — no echo of the user input -/

/-- Transcript whose only non-empty message is the user text: the model
appended a single empty-content message. -/
def c2ts : List Message :=
  [⟨Role.user, "please summarize my meeting", []⟩, ⟨Role.assistant, "", []⟩]

/-- Claim C2, counterexample: on a transcript whose only non-empty message
is the original user text (the model produced one empty message),
`run_agent` returns the empty string — it does not fail with the
no-answer error text. -/
theorem c2_counterexample :
    run_agent (Except.ok ()) (Except.ok c2ts) = Except.ok "" ∧
    "" ≠ noAnswer ∧
    c2ts.all (fun m => (m.content == "") || (m.role == Role.user)) = true := by
  refine ⟨rfl, by decide, by decide⟩

/-- Claim C2, amended: when the model and tools appended no message at all
— the transcript ends with the original user message — `run_agent` returns
the fixed no-answer error text, never the user input itself. (When the
model appended only empty-content messages, the empty text is returned
instead of the error.) -/
theorem c2_amended (ts : List Message) (last : Message)
    (hlast : ts.getLast? = some last) (hrole : last.role = Role.user) :
    run_agent (Except.ok ()) (Except.ok ts) = Except.ok noAnswer ∧
    select ts = noAnswer := by
  have hsel : select ts = noAnswer := by
    simp only [select, hlast, if_pos hrole]
  exact ⟨by simp only [run_agent, hsel], hsel⟩

/-- Claim C2, witness: on the transcript holding only the user message
"hi", `run_agent` returns the no-answer error text. -/
theorem c2_witness :
    run_agent (Except.ok ()) (Except.ok [⟨Role.user, "hi", []⟩]) = Except.ok noAnswer ∧
    select [⟨Role.user, "hi", []⟩] = noAnswer :=
  c2_amended [⟨Role.user, "hi", []⟩] ⟨Role.user, "hi", []⟩ (by decide) (by decide)

/-! ### Persona injection and persisted conversation state (src/graph.py) -/

/-- The persona text built by `chatbot_node` (src/graph.py lines 54-77)
from the configuration values and the current wall-clock time string
(quotation marks of the original text dropped). -/
def personaText (botName personality userName timeStr loc : String) : String :=
  "You are " ++ botName ++ ", " ++ personality ++ " You work for " ++ userName ++
  ".\nCURRENT CONTEXT:\n- Today is: " ++ timeStr ++ "\n- User Location: " ++ loc ++
  "\nRULES:\n1. If the user provides enough info for a calendar event (What, When), just DO IT.\n2. If details are missing, ask for them.\n3. When user says tomorrow, calculate the date based on " ++
  timeStr ++
  ".\n4. If the user sends a LONG voice note or asks for a meeting summary, USE the analyze_meeting tool."

/-- The freshly built system-directive `SystemMessage` of `chatbot_node`
(src/graph.py line 79). -/
def buildPersona (botName personality userName timeStr loc : String) : Message :=
  ⟨Role.system, personaText botName personality userName timeStr loc, []⟩

/-- One execution of `chatbot_node` (src/graph.py lines 82-91) on the
persisted message sequence `msgs`, with the freshly built directive
`persona` and the model's reply `resp`.  Returns
`some (persisted, prompt)`: `prompt` is the ephemeral list handed to
`llm_with_tools.ainvoke` — if the first element is a `SystemMessage` it is
overwritten in place (which also mutates the persisted list), otherwise
the directive is prepended to a fresh list; `persisted` is the state after
LangGraph's `add_messages` reducer appends the returned `[response]`.
On an empty sequence the subscript `state["messages"][0]` raises
(`none`); the graph never invokes the node on an empty state. -/
def chatbot_node (persona resp : Message) :
    List Message → Option (List Message × List Message)
  | [] => none
  | m :: rest =>
    if m.role = Role.system then some ((persona :: rest) ++ [resp], persona :: rest)
    else some ((m :: rest) ++ [resp], persona :: m :: rest)

/-- Number of system-directive messages in a sequence. -/
def sysCount (msgs : List Message) : Nat :=
  (msgs.filter (fun m => m.role == Role.system)).length

/-- One state transition of the persisted conversation, as driven by
`app.ainvoke` (src/main.py line 169) over the graph of src/graph.py:
the inbound `HumanMessage` is appended (src/main.py line 165 together
with the `add_messages` reducer), the `agent` node runs `chatbot_node`
and appends the model reply, and the `tools` node appends one
`ToolMessage` per tool call. -/
inductive AgentStep : List Message → List Message → Prop
  | userInput (s : List Message) (u : Message) (hu : u.role = Role.user) :
      AgentStep s (s ++ [u])
  | chatbot (s s' prompt : List Message) (persona resp : Message)
      (hp : persona.role = Role.system) (hr : resp.role = Role.assistant)
      (hstep : chatbot_node persona resp s = some (s', prompt)) :
      AgentStep s s'
  | tools (s : List Message) (results : List Message)
      (hres : ∀ m ∈ results, m.role = Role.toolResult) :
      AgentStep s (s ++ results)

/-- Persisted conversation states reachable from the empty conversation
(a fresh `thread_id` under the `MemorySaver` checkpointer,
src/graph.py lines 109-110). -/
def Reachable (s : List Message) : Prop :=
  Relation.ReflTransGen AgentStep [] s

theorem sysCount_append (a b : List Message) :
    sysCount (a ++ b) = sysCount a + sysCount b := by
  simp [sysCount, List.filter_append]

theorem sysCount_cons_of_ne (m : Message) (rest : List Message)
    (h : ¬ m.role = Role.system) : sysCount (m :: rest) = sysCount rest := by
  simp [sysCount, List.filter_cons, h]

theorem sysCount_cons_of_eq (m : Message) (rest : List Message)
    (h : m.role = Role.system) : sysCount (m :: rest) = sysCount rest + 1 := by
  simp [sysCount, List.filter_cons, h, Nat.add_comm]

theorem sysCount_eq_zero_of_roles (l : List Message)
    (h : ∀ m ∈ l, ¬ m.role = Role.system) : sysCount l = 0 := by
  induction l with
  | nil => rfl
  | cons m rest ih =>
    rw [sysCount_cons_of_ne m rest (h m (List.Mem.head _))]
    exact ih (fun x hx => h x (List.Mem.tail _ hx))

/-- Every reachable persisted state holds no system-directive message:
the directive returned by `chatbot_node` lives only in the ephemeral
prompt, never in the state the checkpointer saves. -/
theorem reachable_sysCount_zero (s : List Message) (h : Reachable s) :
    sysCount s = 0 := by
  induction h with
  | refl => rfl
  | @tail b c _ step ih =>
    cases step with
    | userInput u hu =>
      rw [sysCount_append, ih, sysCount_cons_of_ne u [] (by rw [hu]; intro hc; cases hc)]
      rfl
    | chatbot s' prompt persona resp hp hr hstep =>
      cases b with
      | nil => cases hstep
      | cons m rest =>
        simp only [chatbot_node] at hstep
        by_cases hm : m.role = Role.system
        · rw [sysCount_cons_of_eq m rest hm] at ih
          cases ih
        · rw [if_neg hm] at hstep
          cases hstep
          rw [sysCount_append, ih,
            sysCount_cons_of_ne resp [] (by rw [hr]; intro hc; cases hc)]
          rfl
    | tools results hres =>
      rw [sysCount_append, ih, sysCount_eq_zero_of_roles results
        (fun m hm => by rw [hres m hm]; intro hc; cases hc)]

/-! ### Claim C3 — the persisted sequence and the system directive -/

/-- The user message of the concrete turn used against claim C3. -/
def c3u : Message := ⟨Role.user, "hi", []⟩

/-- The final model answer of the concrete turn used against claim C3. -/
def c3a : Message := ⟨Role.assistant, "Hello, how can I help?", []⟩

/-- Claim C3, counterexample: after one complete turn (user message, then
the chatbot node appends the model's final answer), the persisted message
sequence of the conversation is reachable yet holds zero system-directive
messages — not exactly one at index 0. -/
theorem c3_counterexample :
    Reachable [c3u, c3a] ∧ sysCount [c3u, c3a] = 0 ∧ [c3u, c3a] ≠ [] := by
  refine ⟨?_, by decide, by decide⟩
  have h1 : AgentStep [] ([] ++ [c3u]) := AgentStep.userInput [] c3u rfl
  have h2 : AgentStep [c3u] [c3u, c3a] :=
    AgentStep.chatbot [c3u] [c3u, c3a] [buildPersona "Gestella" "p" "Sir" "t" "SG", c3u]
      (buildPersona "Gestella" "p" "Sir" "t" "SG") c3a rfl rfl rfl
  exact Relation.ReflTransGen.tail (Relation.ReflTransGen.tail Relation.ReflTransGen.refl h1) h2

/-- Claim C3, amended: for all sequences of turns on one conversation the
persisted message sequence contains no system-directive message at all
(the chatbot node returns only the model reply, so the directive is never
appended and hence never duplicated); the directive instead heads the
ephemeral prompt built for each model call: on every reachable state the
prompt produced by `chatbot_node` contains exactly one system-directive
message, at index 0, namely the freshly built one. -/
theorem c3_amended (s : List Message) (hreach : Reachable s)
    (persona resp : Message) (hp : persona.role = Role.system)
    (s' prompt : List Message)
    (hstep : chatbot_node persona resp s = some (s', prompt)) :
    sysCount s = 0 ∧ prompt.head? = some persona ∧ sysCount prompt = 1 := by
  have hzero : sysCount s = 0 := reachable_sysCount_zero s hreach
  cases s with
  | nil => cases hstep
  | cons m rest =>
    have hm : ¬ m.role = Role.system := by
      intro hm
      rw [sysCount_cons_of_eq m rest hm] at hzero
      cases hzero
    simp only [chatbot_node] at hstep
    rw [if_neg hm] at hstep
    cases hstep
    refine ⟨hzero, rfl, ?_⟩
    rw [sysCount_cons_of_eq persona (m :: rest) hp, hzero]

/-- Claim C3, witness: on the reachable one-message state `[c3u]`, the
chatbot node's ephemeral prompt carries the directive exactly once at its
head while the persisted state carries none. -/
theorem c3_witness :
    sysCount [c3u] = 0 ∧
    ([buildPersona "G" "p" "S" "t" "L", c3u] : List Message).head? =
      some (buildPersona "G" "p" "S" "t" "L") ∧
    sysCount [buildPersona "G" "p" "S" "t" "L", c3u] = 1 :=
  c3_amended [c3u]
    (Relation.ReflTransGen.tail Relation.ReflTransGen.refl (AgentStep.userInput [] c3u rfl))
    (buildPersona "G" "p" "S" "t" "L") c3a rfl [c3u, c3a]
    [buildPersona "G" "p" "S" "t" "L", c3u] rfl

/-! ### Claim C7 — overwrite-or-prepend of the system directive -/

/-- Claim C7, confirmed: on every invocation of `chatbot_node` on the
non-empty message sequence of a conversation (the graph always hands the
node at least the inbound user message), the ephemeral prompt equals the
sequence with its first element overwritten by the fresh directive when
that element is a system-directive, and equals the sequence with the
directive prepended otherwise; in both cases the model sees the fresh
directive at the head of history.  In the overwrite case, the in-place
assignment also reaches the persisted list. -/
theorem c7_theorem (persona resp : Message) (msgs : List Message) (hne : msgs ≠ []) :
    ∃ s' prompt, chatbot_node persona resp msgs = some (s', prompt) ∧
      prompt.head? = some persona ∧
      (∀ m, msgs.head? = some m → m.role = Role.system →
        prompt = msgs.set 0 persona ∧ s' = msgs.set 0 persona ++ [resp]) ∧
      (∀ m, msgs.head? = some m → ¬ m.role = Role.system →
        prompt = persona :: msgs ∧ s' = msgs ++ [resp]) := by
  cases msgs with
  | nil => exact absurd rfl hne
  | cons m rest =>
    by_cases hm : m.role = Role.system
    · refine ⟨(persona :: rest) ++ [resp], persona :: rest,
        by simp only [chatbot_node, if_pos hm], rfl, ?_, ?_⟩
      · intro m' hm' _
        cases hm'
        simp [List.set]
      · intro m' hm' hns
        cases hm'
        exact absurd hm hns
    · refine ⟨(m :: rest) ++ [resp], persona :: m :: rest,
        by simp only [chatbot_node, if_neg hm], rfl, ?_, ?_⟩
      · intro m' hm' hs
        cases hm'
        exact absurd hs hm
      · intro m' hm' _
        cases hm'
        exact ⟨rfl, rfl⟩

/-- Claim C7, witness: on the sequence holding only the user message
"hello" (whose head is not a system-directive), `chatbot_node` prepends
the fresh directive, which heads the prompt. -/
theorem c7_witness :
    ∃ s' prompt,
      chatbot_node (buildPersona "G" "p" "S" "t" "L") ⟨Role.assistant, "hey", []⟩
        [⟨Role.user, "hello", []⟩] = some (s', prompt) ∧
      prompt.head? = some (buildPersona "G" "p" "S" "t" "L") ∧
      (∀ m, ([⟨Role.user, "hello", []⟩] : List Message).head? = some m →
        m.role = Role.system →
        prompt = ([⟨Role.user, "hello", []⟩] : List Message).set 0
            (buildPersona "G" "p" "S" "t" "L") ∧
        s' = ([⟨Role.user, "hello", []⟩] : List Message).set 0
            (buildPersona "G" "p" "S" "t" "L") ++ [⟨Role.assistant, "hey", []⟩]) ∧
      (∀ m, ([⟨Role.user, "hello", []⟩] : List Message).head? = some m →
        ¬ m.role = Role.system →
        prompt = buildPersona "G" "p" "S" "t" "L" :: [⟨Role.user, "hello", []⟩] ∧
        s' = [⟨Role.user, "hello", []⟩] ++ [⟨Role.assistant, "hey", []⟩]) :=
  c7_theorem (buildPersona "G" "p" "S" "t" "L") ⟨Role.assistant, "hey", []⟩
    [⟨Role.user, "hello", []⟩] (by decide)

/-! ### Claim C4 — loop bound and best-effort answer (src/graph.py lines 95-110) -/

/-- The routing function `should_continue` (src/graph.py lines 95-99):
route to the tool node exactly when the last message carries tool calls. -/
def should_continue (msgs : List Message) : Bool :=
  match msgs.getLast? with
  | some last => !last.toolCalls.isEmpty
  | none => false

/-- Error message of the `GraphRecursionError` LangGraph raises out of
`app.ainvoke` when the graph exceeds its recursion limit (default 25);
no step bound is configured anywhere in the sources. -/
def recursionErr : String := "Recursion limit of 25 reached"

/-- The ephemeral prompt built by `chatbot_node` (src/graph.py
lines 82-86), separated from the state update for use inside the loop. -/
def promptOf (persona : Message) : List Message → List Message
  | [] => []
  | m :: rest => if m.role = Role.system then persona :: rest else persona :: m :: rest

/-- Tool execution of the `ToolNode` (src/graph.py line 93): one
`ToolMessage` per requested call. -/
def toolMessages (exec : ToolCall → String) (calls : List ToolCall) : List Message :=
  calls.map (fun c => ⟨Role.toolResult, exec c, []⟩)

/-- The compiled graph loop driven by `app.ainvoke` (src/graph.py
lines 101-110): agent node, then either the tool node and back to the
agent node (when `should_continue` routes to "tools") or termination.
`fuel` models the framework recursion limit: when it runs out, `ainvoke`
raises `GraphRecursionError`, modelled as `Except.error recursionErr`. -/
def runLoop (model : List Message → Message) (exec : ToolCall → String)
    (persona : Message) : Nat → List Message → Except String (List Message)
  | 0, _ => Except.error recursionErr
  | Nat.succ fuel, msgs =>
    match msgs with
    | [] => Except.error "IndexError: list index out of range"
    | m :: rest =>
      let resp := model (promptOf persona (m :: rest))
      let persisted :=
        (if m.role = Role.system then persona :: rest else m :: rest) ++ [resp]
      if should_continue persisted then
        runLoop model exec persona fuel (persisted ++ toolMessages exec resp.toolCalls)
      else Except.ok persisted

theorem should_continue_concat (l : List Message) (resp : Message) :
    should_continue (l ++ [resp]) = !resp.toolCalls.isEmpty := by
  simp [should_continue]

/-- A model that always requests exactly one calendar tool call. -/
def c4model : List Message → Message :=
  fun _ => ⟨Role.assistant, "", [⟨"list_calendar_events", "", "call1"⟩]⟩

/-- A 600-character calendar tool result. -/
def cal600 : String := String.mk (List.replicate 600 'c')

/-- Tool execution always producing the 600-character result. -/
def c4exec : ToolCall → String := fun _ => cal600

/-- The user message opening the turn of the C4 scenario. -/
def c4u : Message := ⟨Role.user, "check my calendar", []⟩

set_option maxRecDepth 40000 in
/-- Claim C4, counterexample: with a model that always requests a tool
call whose result is a 600-character text, the loop stops at the
recursion limit and `run_agent` returns the generic text
"Error: Recursion limit of 25 reached" — not the longest tool-result text
produced so far, and no step-limit error carrying it exists. -/
theorem c4_counterexample :
    run_agent (Except.ok ())
        (runLoop c4model c4exec (buildPersona "G" "p" "S" "t" "L") 25 [c4u]) =
      Except.ok ("Error: " ++ recursionErr) ∧
    c4exec ⟨"list_calendar_events", "", "call1"⟩ = cal600 ∧
    ("Error: " ++ recursionErr) ≠ cal600 := by
  refine ⟨rfl, rfl, by decide⟩

/-- Claim C4, amended: a model that always requests a tool call does make
the loop terminate — but by the framework recursion limit, not a
configured turn-step bound: for every fuel value `ainvoke` ends in the
recursion error, which `run_agent` converts to the generic text
"Error: Recursion limit of 25 reached"; the longest tool-result text
produced so far is not surfaced. -/
theorem c4_amended (model : List Message → Message) (exec : ToolCall → String)
    (persona : Message) (hmodel : ∀ prompt, (model prompt).toolCalls ≠ [])
    (fuel : Nat) (msgs : List Message) (hne : msgs ≠ []) :
    runLoop model exec persona fuel msgs = Except.error recursionErr ∧
    run_agent (Except.ok ()) (runLoop model exec persona fuel msgs) =
      Except.ok ("Error: " ++ recursionErr) := by
  have hloop : ∀ f : Nat, ∀ ms : List Message, ms ≠ [] →
      runLoop model exec persona f ms = Except.error recursionErr := by
    intro f
    induction f with
    | zero => intro ms _; rfl
    | succ f ih =>
      intro ms hms
      cases ms with
      | nil => exact absurd rfl hms
      | cons m rest =>
        have hcalls : (model (promptOf persona (m :: rest))).toolCalls ≠ [] := hmodel _
        have hcont : should_continue
            ((if m.role = Role.system then persona :: rest else m :: rest) ++
              [model (promptOf persona (m :: rest))]) = true := by
          rw [should_continue_concat]
          cases hc : (model (promptOf persona (m :: rest))).toolCalls with
          | nil => exact absurd hc hcalls
          | cons a l => rfl
        show (if should_continue _ then _ else _) = Except.error recursionErr
        rw [hcont]
        simp only [if_true]
        apply ih
        intro hcontra
        have := congrArg List.length hcontra
        simp at this
  have h1 := hloop fuel msgs hne
  exact ⟨h1, by rw [h1]; rfl⟩

/-- Claim C4, witness: at fuel 2 on the concrete always-tool-calling model,
the loop ends in the recursion error and `run_agent` returns the generic
error text. -/
theorem c4_witness :
    runLoop c4model c4exec (buildPersona "G" "p" "S" "t" "L") 2 [c4u] =
      Except.error recursionErr ∧
    run_agent (Except.ok ())
        (runLoop c4model c4exec (buildPersona "G" "p" "S" "t" "L") 2 [c4u]) =
      Except.ok ("Error: " ++ recursionErr) :=
  c4_amended c4model c4exec (buildPersona "G" "p" "S" "t" "L")
    (fun _ h => nomatch h) 2 [c4u] (by decide)

/-! ### Claim C5 — the caller-facing contract of `run_agent` -/

/-- Claim C5, counterexample: `run_agent` raises to its caller when the
typing-indicator transport call (src/main.py line 166, before the `try`
block) fails — a Telegram transport failure, not a store failure — while
a store failure inside `app.ainvoke` (the checkpointer) is caught by the
`except` handler and returned as text instead of propagating. -/
theorem c5_counterexample :
    run_agent (Except.error "TelegramNetworkError: bot unreachable")
        (Except.ok [⟨Role.user, "hi", []⟩]) =
      Except.error "TelegramNetworkError: bot unreachable" ∧
    run_agent (Except.ok ()) (Except.error "StoreUnavailable: checkpointer down") =
      Except.ok ("Error: " ++ "StoreUnavailable: checkpointer down") :=
  ⟨rfl, rfl⟩

/-- Claim C5, amended: once the typing-indicator transport call has
succeeded, `run_agent` always returns a text answer: every failure raised
inside the agent invocation — store failures included — is converted to
the user-visible text "Error: ..."; the only raise to the caller is a
failure of the typing-indicator call itself, which runs before the
guarded region. -/
theorem c5_amended (invoke : Except String (List Message)) (e : String) :
    (∃ t : String, run_agent (Except.ok ()) invoke = Except.ok t) ∧
    run_agent (Except.error e) invoke = Except.error e := by
  refine ⟨?_, rfl⟩
  cases invoke with
  | error e2 => exact ⟨"Error: " ++ e2, rfl⟩
  | ok messages => exact ⟨select messages, rfl⟩

/-! ### Claim C6 — tool failures are isolated (src/calendar.py, src/database.py) -/

/-- A Google calendar event as consumed by `list_calendar_events`
(src/calendar.py lines 57-59): the start is `dateTime` when present,
else `date`, else the Python rendering of `None`. -/
structure GEvent where
  summary : String
  startDateTime : Option String
  startDate : Option String
deriving DecidableEq, Repr

def eventStart (e : GEvent) : String :=
  match e.startDateTime with
  | some s => s
  | none =>
    match e.startDate with
    | some d => d
    | none => "None"

/-- The calendar tool `list_calendar_events` (src/calendar.py
lines 35-64).  `fetch` is the outcome of building the service and
listing events (`get_service` and the API call, lines 42-51, both inside
the `try`); any exception is caught and returned as the text
"Error checking calendar: ...".  The `count` argument only feeds the API
call (`maxResults`). -/
def list_calendar_events (fetch : Except String (List GEvent)) (count : Nat) : String :=
  match fetch with
  | Except.error e => "Error checking calendar: " ++ e
  | Except.ok events =>
    if events.isEmpty then "No upcoming events found."
    else
      events.foldl
        (fun acc ev => acc ++ "- " ++ ev.summary ++ " at " ++ eventStart ev ++ "\n")
        "Upcoming Events:\n"

/-- The memory tool `save_memory` (src/database.py lines 66-79).
`supabaseConfigured` models whether the lazily created client exists
(line 14); `embed` is the outcome of `get_embedding` (line 68, outside
the `try`, so its exception propagates out of the handler); `insert` is
the outcome of the table insert (line 76, inside the `try`, so its
exception becomes the text "Error saving memory: ..."). -/
def save_memory (supabaseConfigured : Bool) (embed : Except String Unit)
    (insert : Except String Unit) (text : String) : Except String String :=
  if !supabaseConfigured then Except.ok "Error: No DB"
  else
    match embed with
    | Except.error e => Except.error e
    | Except.ok _ =>
      match insert with
      | Except.ok _ => Except.ok ("Success: " ++ String.mk (text.data.take 20) ++ "...")
      | Except.error e => Except.ok ("Error saving memory: " ++ e)

/-- Default error feedback of the LangGraph `ToolNode`
(src/graph.py line 93): an exception escaping a tool handler is caught
and fed back to the model as a `ToolMessage` text. -/
def execTool (outcome : Except String String) : String :=
  match outcome with
  | Except.ok s => s
  | Except.error e => "Error: " ++ e ++ "\n Please fix your mistakes."

/-- One execution step of the `ToolNode` over the requested calls: each
call is invoked independently and contributes one tool-result message. -/
def toolStep (handler : ToolCall → Except String String) (calls : List ToolCall) :
    List Message :=
  calls.map (fun c => ⟨Role.toolResult, execTool (handler c), []⟩)

/-- Claim C6, confirmed: a failing tool invocation is fatal only for that
call — the tool step always yields exactly one tool-result message per
requested call, the message of call `i` depends only on the outcome of
call `i` (so a sibling failure cannot abort it), every result re-enters
the loop as a tool-result message rather than aborting the turn, and the
concrete handlers of the sources catch their service errors and return
them as text. -/
theorem c6_theorem (handler handler2 : ToolCall → Except String String)
    (calls : List ToolCall) (i : Nat) (c : ToolCall) (hc : calls[i]? = some c)
    (hagree : handler2 c = handler c) (e txt : String) :
    (toolStep handler calls).length = calls.length ∧
    (toolStep handler calls)[i]? = some ⟨Role.toolResult, execTool (handler c), []⟩ ∧
    (toolStep handler2 calls)[i]? = (toolStep handler calls)[i]? ∧
    (∀ m ∈ toolStep handler calls, m.role = Role.toolResult) ∧
    execTool (Except.error e) = "Error: " ++ e ++ "\n Please fix your mistakes." ∧
    list_calendar_events (Except.error e) 5 = "Error checking calendar: " ++ e ∧
    save_memory true (Except.ok ()) (Except.error e) txt =
      Except.ok ("Error saving memory: " ++ e) := by
  refine ⟨by simp [toolStep], ?_, ?_, ?_, rfl, rfl, rfl⟩
  · rw [toolStep, List.getElem?_map, hc]
    rfl
  · rw [toolStep, toolStep, List.getElem?_map, List.getElem?_map, hc]
    simp [hagree]
  · intro m hm
    obtain ⟨c2, _, hmk⟩ := List.mem_map.mp hm
    rw [← hmk]

/-- Claim C6, witness: a two-call step in which the memory tool fails and
the calendar tool succeeds — the failing call yields an error-text
tool-result message and leaves the sibling result untouched. -/
theorem c6_witness :
    (toolStep
        (fun c => if c.name = "save_memory" then Except.error "boom" else Except.ok "ok")
        [⟨"save_memory", "", "1"⟩, ⟨"list_calendar_events", "", "2"⟩]).length =
      ([⟨"save_memory", "", "1"⟩, ⟨"list_calendar_events", "", "2"⟩] :
        List ToolCall).length ∧
    (toolStep
        (fun c => if c.name = "save_memory" then Except.error "boom" else Except.ok "ok")
        [⟨"save_memory", "", "1"⟩, ⟨"list_calendar_events", "", "2"⟩])[0]? =
      some ⟨Role.toolResult,
        execTool ((fun c : ToolCall =>
          if c.name = "save_memory" then Except.error "boom" else Except.ok "ok")
          ⟨"save_memory", "", "1"⟩), []⟩ ∧
    (toolStep
        (fun c => if c.name = "save_memory" then Except.error "boom" else Except.ok "ok")
        [⟨"save_memory", "", "1"⟩, ⟨"list_calendar_events", "", "2"⟩])[0]? =
      (toolStep
        (fun c => if c.name = "save_memory" then Except.error "boom" else Except.ok "ok")
        [⟨"save_memory", "", "1"⟩, ⟨"list_calendar_events", "", "2"⟩])[0]? ∧
    (∀ m ∈ toolStep
        (fun c => if c.name = "save_memory" then Except.error "boom" else Except.ok "ok")
        [⟨"save_memory", "", "1"⟩, ⟨"list_calendar_events", "", "2"⟩],
      m.role = Role.toolResult) ∧
    execTool (Except.error "boom") = "Error: " ++ "boom" ++ "\n Please fix your mistakes." ∧
    list_calendar_events (Except.error "boom") 5 = "Error checking calendar: " ++ "boom" ∧
    save_memory true (Except.ok ()) (Except.error "boom") "note" =
      Except.ok ("Error saving memory: " ++ "boom") :=
  c6_theorem
    (fun c => if c.name = "save_memory" then Except.error "boom" else Except.ok "ok")
    (fun c => if c.name = "save_memory" then Except.error "boom" else Except.ok "ok")
    [⟨"save_memory", "", "1"⟩, ⟨"list_calendar_events", "", "2"⟩] 0
    ⟨"save_memory", "", "1"⟩ rfl rfl "boom" "note"

/-! ### Claim C9 — the subscription gatekeeper (src/database.py lines 24-35) -/

/-- A row of the `users` table as selected by `check_user_subscription`. -/
structure UserRow where
  subscription_status : String
deriving DecidableEq, Repr

/-- The subscription gatekeeper `check_user_subscription`
(src/database.py lines 24-35).  `supabaseConfigured` models whether the
client was created (lines 14-16); `lookup` is the outcome of the filtered
select on the `users` table, whose exception is caught and turned into a
`False` return. -/
def check_user_subscription (supabaseConfigured : Bool)
    (lookup : Except String (List UserRow)) : Bool :=
  if !supabaseConfigured then true
  else
    match lookup with
    | Except.error _ => false
    | Except.ok rows =>
      match rows with
      | [] => false
      | r :: _ => r.subscription_status == "active"

/-- Claim C9, confirmed: with no configured database client every user is
granted access; with a configured client the check returns `true` exactly
when the lookup succeeded and its first row has subscription status
"active", and every lookup failure yields `false` instead of raising. -/
theorem c9_theorem (lookup : Except String (List UserRow)) (e : String) :
    check_user_subscription false lookup = true ∧
    check_user_subscription true (Except.error e) = false ∧
    (check_user_subscription true lookup = true ↔
      ∃ r rest, lookup = Except.ok (r :: rest) ∧ r.subscription_status = "active") := by
  refine ⟨rfl, rfl, ?_⟩
  cases lookup with
  | error e2 =>
    constructor
    · intro h
      cases h
    · rintro ⟨r, rest, h, _⟩
      cases h
  | ok rows =>
    cases rows with
    | nil =>
      constructor
      · intro h
        cases h
      · rintro ⟨r, rest, h, _⟩
        cases h
    | cons r rest =>
      constructor
      · intro h
        exact ⟨r, rest, rfl, by
          have : (r.subscription_status == "active") = true := h
          exact eq_of_beq this⟩
      · rintro ⟨r2, rest2, heq, hact⟩
        have h3 : r :: rest = r2 :: rest2 := by injection heq
        have h4 : r = r2 := by injection h3
        show (r.subscription_status == "active") = true
        rw [h4, hact]
        rfl

/-- Claim C9, witness: concrete instances — unconfigured client grants
access, an erroring lookup denies it, and an active row grants it. -/
theorem c9_witness :
    check_user_subscription false (Except.error "down") = true ∧
    check_user_subscription true (Except.error "down") = false ∧
    (check_user_subscription true (Except.error "down") = true ↔
      ∃ r rest, (Except.error "down" : Except String (List UserRow)) =
        Except.ok (r :: rest) ∧ r.subscription_status = "active") :=
  c9_theorem (Except.error "down") "down"

/-! ### Claim C8 — outbound delivery of long texts (src/main.py lines 135-155) -/

/-- Substring containment over character lists, modelling the Python
`in` operator on strings. -/
def hasSubList (needle : List Char) : List Char → Bool
  | [] => needle.isEmpty
  | c :: rest => List.isPrefixOf needle (c :: rest) || hasSubList needle rest

/-- The Python substring test `needle in s`. -/
def containsSub (needle s : String) : Bool := hasSubList needle.data s.data

/-- The slicing loop `for x in range(0, len(text), 4096): text[x:x+4096]`
(src/main.py lines 152-153), over character lists. -/
def chunkChars : List Char → List (List Char)
  | [] => []
  | c :: rest => ((c :: rest).take 4096) :: chunkChars ((c :: rest).drop 4096)
termination_by l => l.length
decreasing_by
  simp only [List.length_drop, List.length_cons]
  omega

def chunkText (s : String) : List String := (chunkChars s.data).map String.mk

/-- What `send_smart_response` does with an outbound text: nothing (empty
text), one Telegram document upload holding the whole text, several
sliced `send_message` calls, or one `send_message` call. -/
inductive SendAction where
  | nothing
  | document (text : String)
  | chunks (parts : List String)
  | single (text : String)
deriving DecidableEq, Repr

def isChunks : SendAction → Bool
  | SendAction.chunks _ => true
  | _ => false

/-- The outbound dispatcher `send_smart_response` (src/main.py
lines 135-155): empty texts are dropped; a text containing a report
marker ("# Executive Summary" or "###") or longer than 2000 characters
is written to a file and sent as a document; otherwise a text longer
than 4096 characters would be sent in 4096-character slices, and anything
else as a single message. -/
def send_smart_response (text : String) : SendAction :=
  if text = "" then SendAction.nothing
  else
    let is_meeting_notes :=
      containsSub "# Executive Summary" text || containsSub "###" text
    let is_long := decide (text.length > 2000)
    if is_meeting_notes || is_long then SendAction.document text
    else if text.length > 4096 then SendAction.chunks (chunkText text)
    else SendAction.single text

/-- A 4200-character text with no report marker. -/
def plain4200 : String := String.mk (List.replicate 4200 'a')

theorem plain4200_length : plain4200.length = 4200 := by
  show (List.replicate 4200 'a').length = 4200
  rw [List.length_replicate]

/-- A needle whose first character differs from `c0` occurs nowhere in a
run of `c0`. -/
theorem hasSubList_ne_replicate (d : Char) (t : List Char) (c0 : Char)
    (hne : (d == c0) = false) (n : Nat) :
    hasSubList (d :: t) (List.replicate n c0) = false := by
  induction n with
  | zero => rfl
  | succ n ih =>
    rw [List.replicate_succ]
    show (List.isPrefixOf (d :: t) (c0 :: List.replicate n c0) ||
      hasSubList (d :: t) (List.replicate n c0)) = false
    rw [ih, Bool.or_false]
    show ((d == c0) && List.isPrefixOf t (List.replicate n c0)) = false
    rw [hne, Bool.false_and]

theorem plain4200_marker1 : containsSub "# Executive Summary" plain4200 = false := by
  show hasSubList ("# Executive Summary").data (List.replicate 4200 'a') = false
  exact hasSubList_ne_replicate '#' (" Executive Summary").data 'a' (by decide) 4200

theorem plain4200_marker2 : containsSub "###" plain4200 = false := by
  show hasSubList ("###").data (List.replicate 4200 'a') = false
  exact hasSubList_ne_replicate '#' ("##").data 'a' (by decide) 4200

/-- Claim C8, counterexample: the 4200-character marker-free text is not
split into slices at all — `send_smart_response` sends it as a single
document, because any text longer than 2000 characters takes the document
branch before the 4096-character splitting branch is ever reached. -/
theorem c8_counterexample :
    send_smart_response plain4200 = SendAction.document plain4200 ∧
    isChunks (send_smart_response plain4200) = false ∧
    plain4200.length > 4096 := by
  have hlen : plain4200.length > 4096 := by
    rw [plain4200_length]
    decide
  have hne : ¬ plain4200 = "" := by
    intro h
    rw [h] at hlen
    cases hlen
  have hlong : decide (plain4200.length > 2000) = true :=
    decide_eq_true (Nat.lt_trans (by decide) hlen)
  have hdoc : send_smart_response plain4200 = SendAction.document plain4200 := by
    simp only [send_smart_response, if_neg hne, plain4200_marker1, plain4200_marker2,
      hlong, Bool.or_self, Bool.false_or, if_pos]
  refine ⟨hdoc, by rw [hdoc]; rfl, hlen⟩

/-- Claim C8, amended: a non-report text longer than 4096 characters is
sent as one document carrying the unmodified original text, not as
4096-character slices; the splitting branch is dead code — for no text
whatsoever does `send_smart_response` produce sliced messages, since
reaching the slice branch would need a length both at most 2000 and
greater than 4096. -/
theorem c8_amended (text : String)
    (h1 : containsSub "# Executive Summary" text = false)
    (h2 : containsSub "###" text = false)
    (hlen : text.length > 4096) :
    send_smart_response text = SendAction.document text ∧
    ∀ t : String, isChunks (send_smart_response t) = false := by
  constructor
  · have hne : ¬ text = "" := by
      intro h
      rw [h] at hlen
      cases hlen
    have hlong : decide (text.length > 2000) = true :=
      decide_eq_true (Nat.lt_trans (by decide) hlen)
    simp only [send_smart_response, if_neg hne, h1, h2, hlong,
      Bool.or_self, Bool.false_or, if_pos]
  · intro t
    by_cases ht : t = ""
    · simp [send_smart_response, ht, isChunks]
    · simp only [send_smart_response, if_neg ht]
      by_cases hm : (containsSub "# Executive Summary" t || containsSub "###" t
          || decide (t.length > 2000)) = true
      · rw [if_pos hm]
        rfl
      · rw [if_neg hm]
        have hle : ¬ t.length > 4096 := by
          intro hgt
          apply hm
          have : decide (t.length > 2000) = true :=
            decide_eq_true (Nat.lt_trans (by decide) hgt)
          rw [this, Bool.or_true]
        rw [if_neg hle]
        rfl

/-- Claim C8, witness: the amended theorem applied to the 4200-character
marker-free text: one document, no slices. -/
theorem c8_witness :
    send_smart_response plain4200 = SendAction.document plain4200 ∧
    ∀ t : String, isChunks (send_smart_response t) = false :=
  c8_amended plain4200 plain4200_marker1 plain4200_marker2
    (by rw [plain4200_length]; decide)

/-! ### Claim C10 — the auth gatekeeper (src/main.py lines 55-132) -/

/-- Python `str.strip()` over the character list of a string. -/
def stripChars (l : List Char) : List Char :=
  ((l.dropWhile Char.isWhitespace).reverse.dropWhile Char.isWhitespace).reverse

/-- Python `text.strip()` as used at src/main.py line 68. -/
def pyStrip (s : String) : String := String.mk (stripChars s.data)

/-- The per-user value stored in the global `AUTH_STATE` dictionary
(src/main.py lines 38 and 115): the only value ever stored is
"WAITING_FOR_CODE". -/
inductive AuthSt where
  | waitingForCode
deriving DecidableEq, Repr

/-- Observable outcome of one `check_auth_status` call: its boolean
return value, the `AUTH_STATE` entry of the user afterwards, whether
`token.json` was written, and whether a token exchange
(`flow.fetch_token`) was attempted. -/
structure AuthOutcome where
  result : Bool
  authAfter : Option AuthSt
  tokenWritten : Bool
  exchangeAttempted : Bool
deriving DecidableEq, Repr

/-- The auth gatekeeper `check_auth_status` (src/main.py lines 55-132).
`tokenFileExists` is `os.path.exists("token.json")` (line 63, checked
first and returning `True` immediately); `auth` is the user's
`AUTH_STATE` entry; `exchange` is the outcome of `flow.fetch_token`
(line 87, followed by the token write and the state cleanup, all inside
a `try` returning `False` on failure); `flowStart` is the outcome of
building the consent url in branch C (lines 106-113, `FileNotFoundError`
caught at line 129). -/
def check_auth_status (tokenFileExists : Bool) (auth : Option AuthSt)
    (text : String) (exchange : Except String Unit)
    (flowStart : Except String String) : AuthOutcome :=
  if tokenFileExists then ⟨true, auth, false, false⟩
  else
    match auth with
    | some AuthSt.waitingForCode =>
      let code := pyStrip text
      if code.length < 10 then ⟨false, auth, false, false⟩
      else
        match exchange with
        | Except.ok _ => ⟨true, none, true, true⟩
        | Except.error _ => ⟨false, auth, false, true⟩
    | none =>
      match flowStart with
      | Except.ok _url => ⟨false, some AuthSt.waitingForCode, false, false⟩
      | Except.error _ => ⟨false, auth, false, false⟩

theorem length_dropWhile_le (p : Char → Bool) (l : List Char) :
    (l.dropWhile p).length ≤ l.length := by
  induction l with
  | nil => exact Nat.le_refl 0
  | cons c rest ih =>
    rw [List.dropWhile_cons]
    by_cases h : p c
    · rw [if_pos h]
      exact Nat.le_trans ih (Nat.le_succ _)
    · rw [if_neg h]

theorem pyStrip_length_le (s : String) : (pyStrip s).length ≤ s.length := by
  show (stripChars s.data).length ≤ s.data.length
  unfold stripChars
  rw [List.length_reverse]
  calc ((s.data.dropWhile Char.isWhitespace).reverse.dropWhile Char.isWhitespace).length
      ≤ (s.data.dropWhile Char.isWhitespace).reverse.length :=
        length_dropWhile_le _ _
    _ = (s.data.dropWhile Char.isWhitespace).length := List.length_reverse _
    _ ≤ s.data.length := length_dropWhile_le _ _

/-- Claim C10, counterexample: a user whose `AUTH_STATE` entry is
WAITING_FOR_CODE sends the 2-character text "hi" while `token.json`
already exists (written when some other user completed the flow — the
token file is global): `check_auth_status` returns `True`, not `False`. -/
theorem c10_counterexample :
    check_auth_status true (some AuthSt.waitingForCode) "hi"
        (Except.error "expired") (Except.error "no credentials") =
      ⟨true, some AuthSt.waitingForCode, false, false⟩ ∧
    ("hi" : String).length < 10 := by
  exact ⟨rfl, by decide⟩

/-- Claim C10, amended: provided no token file is present, a user in the
WAITING_FOR_CODE state who sends a text shorter than 10 characters gets
`False` back, with no token exchange attempted, no token file written,
and the WAITING_FOR_CODE state kept unchanged.  (When a token file
already exists, the call instead returns `True` — still without exchange,
state change, or file write.) -/
theorem c10_amended (text : String) (hshort : text.length < 10)
    (exchange : Except String Unit) (flowStart : Except String String) :
    check_auth_status false (some AuthSt.waitingForCode) text exchange flowStart =
      ⟨false, some AuthSt.waitingForCode, false, false⟩ := by
  have hcode : (pyStrip text).length < 10 :=
    Nat.lt_of_le_of_lt (pyStrip_length_le text) hshort
  simp only [check_auth_status, if_neg (Bool.false_ne_true), if_pos hcode]

/-- Claim C10, witness: the short text "abc" in the WAITING_FOR_CODE
state with no token file present yields `False` and leaves everything
untouched. -/
theorem c10_witness :
    check_auth_status false (some AuthSt.waitingForCode) "abc"
        (Except.ok ()) (Except.ok "url") =
      ⟨false, some AuthSt.waitingForCode, false, false⟩ :=
  c10_amended "abc" (by decide) (Except.ok ()) (Except.ok "url")
